import Mathlib

/-!
Verification of the python-overseerr client against its specification.

The repository sources available are src/python_overseerr/exceptions.py,
src/python_overseerr/models.py and the test suite (tests/const.py,
tests/conftest.py, tests/test_overseerr.py).  The client module itself
(the request executor and facade) is not among the sources, so those
parts are modelled from the specification, faithful to its words and to
the wire values the test suite pins; each such definition carries a doc
comment starting with "Modelled from the spec:".  Everything else is a
shallow embedding translated directly from the Python sources.

JSON values are modelled with numbers as integers: no claim depends on
fractional numeric values, and datetime-valued fields are kept as their
wire strings (ISO timestamps), since no claim depends on date parsing.
-/

/-- A JSON value.  Numbers are modelled as integers (no claim depends on
fractional parts); objects are ordered association lists as produced by a
JSON parser. -/
inductive Json where
  | null : Json
  | bool (b : Bool) : Json
  | num (n : Int) : Json
  | str (s : String) : Json
  | arr (elems : List Json) : Json
  | obj (members : List (String × Json)) : Json

/-- Look up a key in a JSON object (first occurrence); none when the value
is not an object or the key is absent. -/
def Json.lookup : Json → String → Option Json
  | .obj members, k => List.lookup k members
  | _, _ => none

def Json.asInt : Json → Option Int
  | .num n => some n
  | _ => none

def Json.asStr : Json → Option String
  | .str s => some s
  | _ => none

def Json.asBool : Json → Option Bool
  | .bool b => some b
  | _ => none

/-! ## Enum families

MediaStatus and MediaType are translated from src/python_overseerr/models.py.
The other five families are imported by the tests from the models module but
are absent from the sources provided, so they are modelled from the spec
(section 4.4: string wire values for filter/sort enums, integer wire values
for notification/issue-type/issue-status enums), with members restricted to
those whose wire values the test suite pins. -/

/-- MediaStatus from models.py: IntEnum with UNKNOWN = 1 .. AVAILABLE = 5. -/
inductive MediaStatus where
  | unknown : MediaStatus
  | pending : MediaStatus
  | processing : MediaStatus
  | partiallyAvailable : MediaStatus
  | available : MediaStatus
deriving DecidableEq

/-- Wire value of a MediaStatus member (the IntEnum value in models.py). -/
def MediaStatus.encode : MediaStatus → Int
  | .unknown => 1
  | .pending => 2
  | .processing => 3
  | .partiallyAvailable => 4
  | .available => 5

/-- Decoding an integer wire value into MediaStatus; unknown integers are
rejected (Python IntEnum lookup raises on values outside the enum). -/
def MediaStatus.decode (n : Int) : Option MediaStatus :=
  if n = 1 then some .unknown
  else if n = 2 then some .pending
  else if n = 3 then some .processing
  else if n = 4 then some .partiallyAvailable
  else if n = 5 then some .available
  else none

/-- MediaType from models.py: StrEnum with values "movie", "tv", "person". -/
inductive MediaType where
  | movie : MediaType
  | tv : MediaType
  | person : MediaType
deriving DecidableEq

/-- Wire value of a MediaType member (the StrEnum value in models.py). -/
def MediaType.encode : MediaType → String
  | .movie => "movie"
  | .tv => "tv"
  | .person => "person"

/-- Decoding a string wire value into MediaType; unknown strings are
rejected (Python StrEnum lookup raises on values outside the enum). -/
def MediaType.decode (s : String) : Option MediaType :=
  if s = "movie" then some .movie
  else if s = "tv" then some .tv
  else if s = "person" then some .person
  else none

/-- Modelled from the spec: NotificationType is imported by the tests from
the models module but is absent from the sources provided.  Integer wire
values per spec section 4.4; members restricted to the wire values the
tests pin (types 2 and 4 in the webhook configuration payloads). -/
inductive NotificationType where
  | requestPendingApproval : NotificationType
  | requestApproved : NotificationType
deriving DecidableEq

def NotificationType.encode : NotificationType → Int
  | .requestPendingApproval => 2
  | .requestApproved => 4

def NotificationType.decode (n : Int) : Option NotificationType :=
  if n = 2 then some .requestPendingApproval
  else if n = 4 then some .requestApproved
  else none

/-- Modelled from the spec: IssueType is imported by the tests from the
models module but is absent from the sources provided.  Integer wire values
per spec section 4.4; the tests pin VIDEO with wire value 1. -/
inductive IssueType where
  | video : IssueType
deriving DecidableEq

def IssueType.encode : IssueType → Int
  | .video => 1

def IssueType.decode (n : Int) : Option IssueType :=
  if n = 1 then some .video else none

/-- Modelled from the spec: IssueStatus is imported by the tests from the
models module but is absent from the sources provided.  Integer wire values
per spec section 4.4; the tests pin RESOLVED with wire value 2. -/
inductive IssueStatus where
  | resolved : IssueStatus
deriving DecidableEq

def IssueStatus.encode : IssueStatus → Int
  | .resolved => 2

def IssueStatus.decode (n : Int) : Option IssueStatus :=
  if n = 2 then some .resolved else none

/-- Modelled from the spec: RequestSortStatus is imported by the tests from
the models module but is absent from the sources provided.  String wire
values per spec section 4.4; the tests pin ADDED with wire value "added". -/
inductive RequestSortStatus where
  | added : RequestSortStatus
deriving DecidableEq

def RequestSortStatus.encode : RequestSortStatus → String
  | .added => "added"

def RequestSortStatus.decode (s : String) : Option RequestSortStatus :=
  if s = "added" then some .added else none

/-- Modelled from the spec: RequestFilterStatus is imported by the tests
from the models module but is absent from the sources provided.  String wire
values per spec section 4.4; the tests pin ALL with wire value "all". -/
inductive RequestFilterStatus where
  | all : RequestFilterStatus
deriving DecidableEq

def RequestFilterStatus.encode : RequestFilterStatus → String
  | .all => "all"

def RequestFilterStatus.decode (s : String) : Option RequestFilterStatus :=
  if s = "all" then some .all else none

/-! ## Typed records and JSON decoding, from src/python_overseerr/models.py

The decoders embed the field-by-field decoding mashumaro generates for the
dataclasses in models.py: each required field is looked up under its wire
name (the declared alias) and converted to its declared type, failing with
a typed decoding error when the key is missing or the value has the wrong
shape.  Datetime fields are kept as their wire strings. -/

/-- Typed decoding errors (mashumaro raises MissingField, InvalidFieldValue
and SuitableVariantNotFoundError respectively). -/
inductive DecodeError where
  | missingField (variant name : String) : DecodeError
  | invalidValue (variant name : String) : DecodeError
  | unknownDiscriminator (value : Json) : DecodeError

/-- Decode one required field of a record: look the wire name up in the
object, then convert; missing key and unconvertible value are distinct
typed errors. -/
def reqField {α : Type} (variant : String) (j : Json) (name : String)
    (conv : Json → Option α) : Except DecodeError α :=
  match j.lookup name with
  | none => .error (.missingField variant name)
  | some v =>
    match conv v with
    | none => .error (.invalidValue variant name)
    | some a => .ok a

/-- Conversion for a MediaType-typed field (StrEnum: string wire value). -/
def asMediaType : Json → Option MediaType
  | .str s => MediaType.decode s
  | _ => none

/-- Conversion for a MediaStatus-typed field (IntEnum: integer wire value). -/
def asMediaStatus : Json → Option MediaStatus
  | .num n => MediaStatus.decode n
  | _ => none

/-- MediaInfo from models.py; created_at and updated_at keep their wire
strings (the datetime fields, aliased createdAt and updatedAt). -/
structure MediaInfo where
  id : Int
  tmdb_id : Int
  tvdb_id : Int
  status : MediaStatus
  created_at : String
  updated_at : String
deriving DecidableEq

/-- Field-by-field decoder for MediaInfo from models.py (aliases tmdbId,
tvdbId, createdAt, updatedAt). -/
def decodeMediaInfo (j : Json) : Except DecodeError MediaInfo :=
  match reqField "MediaInfo" j "id" Json.asInt,
        reqField "MediaInfo" j "tmdbId" Json.asInt,
        reqField "MediaInfo" j "tvdbId" Json.asInt,
        reqField "MediaInfo" j "status" asMediaStatus,
        reqField "MediaInfo" j "createdAt" Json.asStr,
        reqField "MediaInfo" j "updatedAt" Json.asStr with
  | .ok a, .ok b, .ok c, .ok d, .ok e, .ok f => .ok ⟨a, b, c, d, e, f⟩
  | .error e, _, _, _, _, _ => .error e
  | _, .error e, _, _, _, _ => .error e
  | _, _, .error e, _, _, _ => .error e
  | _, _, _, .error e, _, _ => .error e
  | _, _, _, _, .error e, _ => .error e
  | _, _, _, _, _, .error e => .error e

/-- MovieResult from models.py.  The base Result dataclass declares both a
mediaType field and a media_type field aliased to the same wire name
mediaType; both are kept, decoded from that single key.  media_info is the
optional nested structure aliased mediaInfo, defaulting to None. -/
structure MovieResult where
  id : Int
  mediaType : MediaType
  media_type : MediaType
  adult : Bool
  original_language : String
  original_title : String
  overview : String
  popularity : Int
  title : String
  media_info : Option MediaInfo
deriving DecidableEq

/-- TVResult from models.py: only the base Result fields. -/
structure TVResult where
  id : Int
  mediaType : MediaType
  media_type : MediaType
  adult : Bool
deriving DecidableEq

/-- PersonResult from models.py: only the base Result fields. -/
structure PersonResult where
  id : Int
  mediaType : MediaType
  media_type : MediaType
  adult : Bool
deriving DecidableEq

/-- Decoding of the optional nested media_info field of MovieResult: a
missing key or an explicit JSON null decode to the absent value (the
dataclass default None); a present non-null value must decode as a
MediaInfo object. -/
def decodeOptMediaInfo : Option Json → Except DecodeError (Option MediaInfo)
  | none => .ok none
  | some .null => .ok none
  | some v => Except.map some (decodeMediaInfo v)

/-- Field-by-field decoder for MovieResult from models.py (aliases
originalLanguage, originalTitle, mediaInfo). -/
def decodeMovieResult (j : Json) : Except DecodeError MovieResult :=
  match reqField "MovieResult" j "id" Json.asInt,
        reqField "MovieResult" j "mediaType" asMediaType,
        reqField "MovieResult" j "adult" Json.asBool,
        reqField "MovieResult" j "originalLanguage" Json.asStr,
        reqField "MovieResult" j "originalTitle" Json.asStr,
        reqField "MovieResult" j "overview" Json.asStr,
        reqField "MovieResult" j "popularity" Json.asInt,
        reqField "MovieResult" j "title" Json.asStr,
        decodeOptMediaInfo (j.lookup "mediaInfo") with
  | .ok idv, .ok mt, .ok ad, .ok ol, .ok ot, .ok ov, .ok pop, .ok ti, .ok mi =>
    .ok ⟨idv, mt, mt, ad, ol, ot, ov, pop, ti, mi⟩
  | .error e, _, _, _, _, _, _, _, _ => .error e
  | _, .error e, _, _, _, _, _, _, _ => .error e
  | _, _, .error e, _, _, _, _, _, _ => .error e
  | _, _, _, .error e, _, _, _, _, _ => .error e
  | _, _, _, _, .error e, _, _, _, _ => .error e
  | _, _, _, _, _, .error e, _, _, _ => .error e
  | _, _, _, _, _, _, .error e, _, _ => .error e
  | _, _, _, _, _, _, _, .error e, _ => .error e
  | _, _, _, _, _, _, _, _, .error e => .error e

/-- Field-by-field decoder for TVResult from models.py. -/
def decodeTVResult (j : Json) : Except DecodeError TVResult :=
  match reqField "TVResult" j "id" Json.asInt,
        reqField "TVResult" j "mediaType" asMediaType,
        reqField "TVResult" j "adult" Json.asBool with
  | .ok idv, .ok mt, .ok ad => .ok ⟨idv, mt, mt, ad⟩
  | .error e, _, _ => .error e
  | _, .error e, _ => .error e
  | _, _, .error e => .error e

/-- Field-by-field decoder for PersonResult from models.py. -/
def decodePersonResult (j : Json) : Except DecodeError PersonResult :=
  match reqField "PersonResult" j "id" Json.asInt,
        reqField "PersonResult" j "mediaType" asMediaType,
        reqField "PersonResult" j "adult" Json.asBool with
  | .ok idv, .ok mt, .ok ad => .ok ⟨idv, mt, mt, ad⟩
  | .error e, _, _ => .error e
  | _, .error e, _ => .error e
  | _, _, .error e => .error e

/-- The tagged union a SearchResult element decodes to: one variant per
Result subclass in models.py. -/
inductive SearchResultItem where
  | movieItem (m : MovieResult) : SearchResultItem
  | tvItem (t : TVResult) : SearchResultItem
  | personItem (p : PersonResult) : SearchResultItem
deriving DecidableEq

/-- The MediaType tag a decoded variant carries (the class-level mediaType
each Result subclass declares for discriminator matching). -/
def itemMediaType : SearchResultItem → MediaType
  | .movieItem _ => .movie
  | .tvItem _ => .tv
  | .personItem _ => .person

/-- The discriminator of a search-result element: the string value of its
mediaType key, when present. -/
def discriminatorOf (j : Json) : Option String :=
  (j.lookup "mediaType").bind Json.asStr

/-- Decode one element of the results array, dispatching on the mediaType
discriminator the way the mashumaro Discriminator declaration in
models.py (on the mediaType key, with subtypes included) does: "movie", "tv" and "person" select
the matching subclass decoder, anything else is a typed decoding error
(SuitableVariantNotFoundError). -/
def decodeResultElem (j : Json) : Except DecodeError SearchResultItem :=
  match j.lookup "mediaType" with
  | none => .error (.missingField "Result" "mediaType")
  | some v =>
    match v.asStr with
    | none => .error (.unknownDiscriminator v)
    | some s =>
      if s = "movie" then Except.map .movieItem (decodeMovieResult j)
      else if s = "tv" then Except.map .tvItem (decodeTVResult j)
      else if s = "person" then Except.map .personItem (decodePersonResult j)
      else .error (.unknownDiscriminator v)

/-- Decode the results array element by element, failing on the first
element whose decode fails (the whole decode fails, no element is
dropped). -/
def decodeResults : List Json → Except DecodeError (List SearchResultItem)
  | [] => .ok []
  | j :: rest =>
    match decodeResultElem j with
    | .error e => .error e
    | .ok y =>
      match decodeResults rest with
      | .error e => .error e
      | .ok ys => .ok (y :: ys)

/-- SearchResult from models.py: a record with the decoded results list. -/
structure SearchResult where
  results : List SearchResultItem
deriving DecidableEq

/-- Decoder for SearchResult from models.py: the results key must hold an
array, decoded element by element through the discriminator dispatch. -/
def decodeSearchResult (j : Json) : Except DecodeError SearchResult :=
  match j.lookup "results" with
  | none => .error (.missingField "SearchResult" "results")
  | some (.arr xs) => Except.map SearchResult.mk (decodeResults xs)
  | some _ => .error (.invalidValue "SearchResult" "results")

/-! ## Exception hierarchy, from src/python_overseerr/exceptions.py

exceptions.py declares exactly two classes: OverseerrError(Exception) and
OverseerrConnectionError(OverseerrError). -/

/-- The exception classes exceptions.py declares, together with the Python
builtin Exception they root in. -/
inductive ExcClass where
  | pyException : ExcClass
  | overseerrError : ExcClass
  | overseerrConnectionError : ExcClass
deriving DecidableEq

/-- The declared base of each class: OverseerrError extends Exception and
OverseerrConnectionError extends OverseerrError, exactly as written in
exceptions.py. -/
def superclass : ExcClass → Option ExcClass
  | .pyException => none
  | .overseerrError => some .pyException
  | .overseerrConnectionError => some .overseerrError

/-- The subclass relation generated by the declared bases (Python
issubclass: reflexive, following declared bases upward). -/
inductive Subclass : ExcClass → ExcClass → Prop where
  | refl (c : ExcClass) : Subclass c c
  | step {c p d : ExcClass} : superclass c = some p → Subclass p d →
      Subclass c d

/-- The Python name of each declared class. -/
def pythonName : ExcClass → String
  | .pyException => "Exception"
  | .overseerrError => "OverseerrError"
  | .overseerrConnectionError => "OverseerrConnectionError"

/-- The class names exceptions.py declares (its two class statements). -/
def declaredExceptionNames : List String :=
  ["OverseerrError", "OverseerrConnectionError"]

/-- The names tests/test_overseerr.py imports from
python_overseerr.exceptions (its import statement, lines 15 to 19). -/
def testImportedExceptionNames : List String :=
  ["OverseerrAuthenticationError", "OverseerrConnectionError",
   "OverseerrError"]

/-! ## Request executor and error classifier

The client module holding the request executor is not among the sources
provided; it is modelled from the spec (sections 4.1, 4.2 and 7), with
the shapes the test suite pins. -/

/-- Modelled from the spec: the typed failure taxonomy of section 7 -
ConnectionFailure, AuthenticationFailure and GenericServiceFailure -
produced only at the error-classifier boundary. -/
inductive OverseerrFailure where
  | connectionError (cause : String) : OverseerrFailure
  | authenticationError (message : String) : OverseerrFailure
  | genericError (status : Nat) (body : String) : OverseerrFailure
deriving DecidableEq

/-- Modelled from the spec: the transport-level failure conditions of
sections 4.1 and 7 - elapsed timeout, refused connection, DNS failure,
premature close and generic client error. -/
inductive TransportFailure where
  | timeout : TransportFailure
  | connectionRefused : TransportFailure
  | dnsFailure : TransportFailure
  | prematureClose : TransportFailure
  | clientError : TransportFailure
deriving DecidableEq

/-- Modelled from the spec: the wrapped cause message a ConnectionFailure
carries for each transport-level failure. -/
def transportMessage : TransportFailure → String
  | .timeout => "Timeout occurred while connecting to the API"
  | .connectionRefused => "Connection refused while connecting to the API"
  | .dnsFailure => "DNS resolution failed while connecting to the API"
  | .prematureClose => "Connection closed before a full response arrived"
  | .clientError => "Error occurred while communicating with the API"

/-- An HTTP response as the classifier sees it: the status code, the body
parsed as JSON when it is valid JSON, and the raw body text. -/
structure HttpResponse where
  status : Nat
  jsonBody : Option Json
  rawBody : String

/-- A call outcome at the transport boundary: either a response arrived or
the transport failed. -/
inductive CallOutcome where
  | response (r : HttpResponse) : CallOutcome
  | transport (t : TransportFailure) : CallOutcome

/-- Whether a status code is in the success range 200 to 299. -/
def isSuccessStatus (s : Nat) : Bool :=
  200 ≤ s && s ≤ 299

/-- Modelled from the spec: whether a JSON body matches the access-denial
shape of the service - an object with a message field stating lack of
permission - returning the parsed message when it does. -/
def accessDenialMessage (j : Json) : Option String :=
  match j.lookup "message" with
  | some (.str m) =>
    if String.isPrefixOf "You do not have permission" m then some m
    else none
  | _ => none

/-- Modelled from the spec: the error classifier of section 4.2, applied
only when the status is outside 200 to 299.  A 403 whose body parses as
JSON and matches the access-denial shape yields AuthenticationFailure with
the parsed message; any other 403 body, and every other non-success
status, yields GenericServiceFailure with the status and raw body. -/
def classify (r : HttpResponse) : Option OverseerrFailure :=
  if isSuccessStatus r.status then none
  else if r.status = 403 then
    match r.jsonBody with
    | some j =>
      match accessDenialMessage j with
      | some m => some (.authenticationError m)
      | none => some (.genericError r.status r.rawBody)
    | none => some (.genericError r.status r.rawBody)
  else some (.genericError r.status r.rawBody)

/-- Modelled from the spec: the request executor of section 4.1.  A
transport-level failure becomes a ConnectionFailure wrapping its cause; a
response is passed through the error classifier, and a successful response
is returned for downstream decoding. -/
def executeCall : CallOutcome → Except OverseerrFailure HttpResponse
  | .transport t => .error (.connectionError (transportMessage t))
  | .response r =>
    match classify r with
    | some f => .error f
    | none => .ok r

/-- Modelled from the spec: the webhook test endpoint of section 4.5
returns a plain boolean derived from the response status - success on a
2xx status, false rather than a typed failure otherwise; only transport
failures still surface as ConnectionFailure. -/
def testWebhookNotificationConfig :
    CallOutcome → Except OverseerrFailure Bool
  | .transport t => .error (.connectionError (transportMessage t))
  | .response r => .ok (isSuccessStatus r.status)

/-! ## Session lifecycle

Modelled from the spec (sections 3 and 4.1): the session is either
supplied by the caller at construction or created lazily by the client on
first request, an ownership flag records which, and teardown closes only
an owned session. -/

/-- A transport session; only its open/closed state matters here. -/
structure Session where
  closed : Bool
deriving DecidableEq

/-- Modelled from the spec: the client state relevant to session
lifecycle - the current session, if any, and the ownership flag set only
when the client created the session itself. -/
structure OverseerrClient where
  session : Option Session
  closeSession : Bool
deriving DecidableEq

/-- Modelled from the spec: construction - a caller-supplied session is
stored with the ownership flag off; with no session supplied, none exists
yet and the flag is off. -/
def mkClient (external : Option Session) : OverseerrClient :=
  { session := external, closeSession := false }

/-- Modelled from the spec: lazy creation on first request - when no
session exists, an open session is created and the ownership flag set;
an existing session is reused unchanged. -/
def ensureSession (c : OverseerrClient) : OverseerrClient :=
  match c.session with
  | some _ => c
  | none => { session := some { closed := false }, closeSession := true }

/-- Modelled from the spec: teardown - the session is closed only when one
exists and the client owns it; a caller-supplied session is left alone. -/
def closeClient (c : OverseerrClient) : OverseerrClient :=
  if c.closeSession then
    match c.session with
    | some s => { c with session := some { s with closed := true } }
    | none => c
  else c

/-! ## Query parameters and headers -/

/-- Modelled from the spec: the query parameters the request-fetching
operation builds - each optional argument contributes its pair only when
supplied, under the wire names and encoded values the tests pin (filter,
sort, requestedBy). -/
def getRequestsParams (status : Option RequestFilterStatus)
    (sort : Option RequestSortStatus) (requestedBy : Option Nat) :
    List (String × String) :=
  (match status with
   | some f => [("filter", RequestFilterStatus.encode f)]
   | none => []) ++
  (match sort with
   | some s => [("sort", RequestSortStatus.encode s)]
   | none => []) ++
  (match requestedBy with
   | some n => [("requestedBy", toString n)]
   | none => [])

/-- The header set from tests/const.py (HEADERS): the headers the test
suite asserts the client transmits with every request. -/
def requestHeaders (version : String) : List (String × String) :=
  [("User-Agent", "PythonOverseerr/" ++ version),
   ("Accept", "application/json")]

/-- Modelled from the spec: the header names section 6 requires on every
request - the API key header, the accept header and the user-agent
header. -/
def specRequiredHeaderNames : List String :=
  ["X-Api-Key", "Accept", "User-Agent"]

/-! ## Sample inputs

Concrete JSON values shaped like the search fixtures, used to evaluate the
decoders at concrete inputs. -/

def sampleMovieJson : Json :=
  .obj [("id", .num 1), ("mediaType", .str "movie"), ("adult", .bool false),
        ("originalLanguage", .str "en"), ("originalTitle", .str "Frosty"),
        ("overview", .str "A snowman"), ("popularity", .num 5),
        ("title", .str "Frosty")]

def sampleTVJson : Json :=
  .obj [("id", .num 2), ("mediaType", .str "tv"), ("adult", .bool false)]

def samplePersonJson : Json :=
  .obj [("id", .num 3), ("mediaType", .str "person"),
        ("adult", .bool false)]

/-- An element carrying the unrecognized discriminator value "book". -/
def sampleBookJson : Json :=
  .obj [("id", .num 4), ("mediaType", .str "book"), ("adult", .bool false)]

def sampleJsonList : List Json :=
  [sampleMovieJson, sampleTVJson, samplePersonJson]

def sampleMovie : MovieResult :=
  ⟨1, .movie, .movie, false, "en", "Frosty", "A snowman", 5, "Frosty", none⟩

def sampleItems : List SearchResultItem :=
  [.movieItem sampleMovie, .tvItem ⟨2, .tv, .tv, false⟩,
   .personItem ⟨3, .person, .person, false⟩]

/-! ## Lemmas: enum wire-value soundness -/

theorem mediaStatus_decode_sound {n : Int} {v : MediaStatus}
    (h : MediaStatus.decode n = some v) : MediaStatus.encode v = n := by
  unfold MediaStatus.decode at h
  split_ifs at h <;> simp_all [MediaStatus.encode] <;> (subst h; rfl)

theorem mediaType_decode_sound {s : String} {v : MediaType}
    (h : MediaType.decode s = some v) : MediaType.encode v = s := by
  unfold MediaType.decode at h
  split_ifs at h <;> simp_all [MediaType.encode] <;> (subst h; rfl)

theorem notificationType_decode_sound {n : Int} {v : NotificationType}
    (h : NotificationType.decode n = some v) :
    NotificationType.encode v = n := by
  unfold NotificationType.decode at h
  split_ifs at h <;> simp_all [NotificationType.encode] <;> (subst h; rfl)

theorem issueType_decode_sound {n : Int} {v : IssueType}
    (h : IssueType.decode n = some v) : IssueType.encode v = n := by
  unfold IssueType.decode at h
  split_ifs at h <;> simp_all [IssueType.encode] <;> (subst h; rfl)

theorem issueStatus_decode_sound {n : Int} {v : IssueStatus}
    (h : IssueStatus.decode n = some v) : IssueStatus.encode v = n := by
  unfold IssueStatus.decode at h
  split_ifs at h <;> simp_all [IssueStatus.encode] <;> (subst h; rfl)

theorem requestSortStatus_decode_sound {s : String} {v : RequestSortStatus}
    (h : RequestSortStatus.decode s = some v) :
    RequestSortStatus.encode v = s := by
  unfold RequestSortStatus.decode at h
  split_ifs at h <;> simp_all [RequestSortStatus.encode] <;> (subst h; rfl)

theorem requestFilterStatus_decode_sound {s : String}
    {v : RequestFilterStatus} (h : RequestFilterStatus.decode s = some v) :
    RequestFilterStatus.encode v = s := by
  unfold RequestFilterStatus.decode at h
  split_ifs at h <;> simp_all [RequestFilterStatus.encode] <;> (subst h; rfl)

/-- C3: for every supported enum family (media type, media status,
notification type, issue type, issue status, request sort, request
filter) and every member v, decoding the wire value produced by encoding
v yields v back, and decoding a wire value that no member encodes to
yields a decoding failure rather than coercing to a default. -/
theorem spec_C3 :
    ((∀ v : MediaType, MediaType.decode (MediaType.encode v) = some v) ∧
     (∀ w : String, (∀ v : MediaType, MediaType.encode v ≠ w) →
       MediaType.decode w = none)) ∧
    ((∀ v : MediaStatus,
       MediaStatus.decode (MediaStatus.encode v) = some v) ∧
     (∀ w : Int, (∀ v : MediaStatus, MediaStatus.encode v ≠ w) →
       MediaStatus.decode w = none)) ∧
    ((∀ v : NotificationType,
       NotificationType.decode (NotificationType.encode v) = some v) ∧
     (∀ w : Int, (∀ v : NotificationType, NotificationType.encode v ≠ w) →
       NotificationType.decode w = none)) ∧
    ((∀ v : IssueType, IssueType.decode (IssueType.encode v) = some v) ∧
     (∀ w : Int, (∀ v : IssueType, IssueType.encode v ≠ w) →
       IssueType.decode w = none)) ∧
    ((∀ v : IssueStatus,
       IssueStatus.decode (IssueStatus.encode v) = some v) ∧
     (∀ w : Int, (∀ v : IssueStatus, IssueStatus.encode v ≠ w) →
       IssueStatus.decode w = none)) ∧
    ((∀ v : RequestSortStatus,
       RequestSortStatus.decode (RequestSortStatus.encode v) = some v) ∧
     (∀ w : String, (∀ v : RequestSortStatus,
         RequestSortStatus.encode v ≠ w) →
       RequestSortStatus.decode w = none)) ∧
    ((∀ v : RequestFilterStatus,
       RequestFilterStatus.decode (RequestFilterStatus.encode v) = some v) ∧
     (∀ w : String, (∀ v : RequestFilterStatus,
         RequestFilterStatus.encode v ≠ w) →
       RequestFilterStatus.decode w = none)) := by
  refine ⟨⟨?_, ?_⟩, ⟨?_, ?_⟩, ⟨?_, ?_⟩, ⟨?_, ?_⟩, ⟨?_, ?_⟩, ⟨?_, ?_⟩,
    ⟨?_, ?_⟩⟩
  · intro v; cases v <;> rfl
  · intro w hw
    cases hd : MediaType.decode w with
    | none => rfl
    | some v => exact absurd (mediaType_decode_sound hd) (hw v)
  · intro v; cases v <;> rfl
  · intro w hw
    cases hd : MediaStatus.decode w with
    | none => rfl
    | some v => exact absurd (mediaStatus_decode_sound hd) (hw v)
  · intro v; cases v <;> rfl
  · intro w hw
    cases hd : NotificationType.decode w with
    | none => rfl
    | some v => exact absurd (notificationType_decode_sound hd) (hw v)
  · intro v; cases v <;> rfl
  · intro w hw
    cases hd : IssueType.decode w with
    | none => rfl
    | some v => exact absurd (issueType_decode_sound hd) (hw v)
  · intro v; cases v <;> rfl
  · intro w hw
    cases hd : IssueStatus.decode w with
    | none => rfl
    | some v => exact absurd (issueStatus_decode_sound hd) (hw v)
  · intro v; cases v <;> rfl
  · intro w hw
    cases hd : RequestSortStatus.decode w with
    | none => rfl
    | some v => exact absurd (requestSortStatus_decode_sound hd) (hw v)
  · intro v; cases v <;> rfl
  · intro w hw
    cases hd : RequestFilterStatus.decode w with
    | none => rfl
    | some v => exact absurd (requestFilterStatus_decode_sound hd) (hw v)

/-- Witness for C3: the round-trip and the rejection of unknown wire
values, evaluated at concrete inputs - the string "book" is no media
type and the integer 0 is no media status. -/
theorem spec_C3_witness :
    MediaType.decode "book" = none ∧ MediaStatus.decode 0 = none ∧
    MediaType.decode (MediaType.encode .movie) = some .movie :=
  ⟨spec_C3.1.2 "book" (fun v => by cases v <;> decide),
   spec_C3.2.1.2 0 (fun v => by cases v <;> decide),
   spec_C3.1.1 .movie⟩

/-! ## Lemmas: discriminated search-result decoding -/

/-- A successfully decoded element carries the variant matching its
discriminator string: the mediaType value of the input names the media
kind of the output variant. -/
theorem decodeResultElem_ok_disc {j : Json} {y : SearchResultItem}
    (h : decodeResultElem j = .ok y) :
    discriminatorOf j = some (MediaType.encode (itemMediaType y)) := by
  unfold decodeResultElem at h
  cases hk : j.lookup "mediaType" with
  | none => rw [hk] at h; exact absurd h (by simp)
  | some v =>
    rw [hk] at h
    dsimp only at h
    cases hs : v.asStr with
    | none => rw [hs] at h; exact absurd h (by simp)
    | some s =>
      rw [hs] at h
      dsimp only at h
      by_cases h1 : s = "movie"
      · rw [if_pos h1] at h
        cases hm : decodeMovieResult j with
        | error e => rw [hm] at h; exact absurd h (by simp [Except.map])
        | ok m =>
          rw [hm] at h
          simp only [Except.map, Except.ok.injEq] at h
          subst h
          simp [discriminatorOf, hk, hs, h1, itemMediaType, MediaType.encode]
      · rw [if_neg h1] at h
        by_cases h2 : s = "tv"
        · rw [if_pos h2] at h
          cases hm : decodeTVResult j with
          | error e => rw [hm] at h; exact absurd h (by simp [Except.map])
          | ok m =>
            rw [hm] at h
            simp only [Except.map, Except.ok.injEq] at h
            subst h
            simp [discriminatorOf, hk, hs, h2, itemMediaType,
              MediaType.encode]
        · rw [if_neg h2] at h
          by_cases h3 : s = "person"
          · rw [if_pos h3] at h
            cases hm : decodePersonResult j with
            | error e => rw [hm] at h; exact absurd h (by simp [Except.map])
            | ok m =>
              rw [hm] at h
              simp only [Except.map, Except.ok.injEq] at h
              subst h
              simp [discriminatorOf, hk, hs, h3, itemMediaType,
                MediaType.encode]
          · rw [if_neg h3] at h
            exact absurd h (by simp)

/-- A successful decode of the results array decodes the elements
pointwise, in order. -/
theorem decodeResults_forall₂ {xs : List Json} {ys : List SearchResultItem}
    (h : decodeResults xs = .ok ys) :
    List.Forall₂ (fun j y => decodeResultElem j = .ok y) xs ys := by
  induction xs generalizing ys with
  | nil =>
    unfold decodeResults at h
    simp only [Except.ok.injEq] at h
    subst h
    exact .nil
  | cons j rest ih =>
    unfold decodeResults at h
    cases hd : decodeResultElem j with
    | error e => rw [hd] at h; exact absurd h (by simp)
    | ok y =>
      rw [hd] at h
      cases hr : decodeResults rest with
      | error e => rw [hr] at h; exact absurd h (by simp)
      | ok ys2 =>
        rw [hr] at h
        simp only [Except.ok.injEq] at h
        subst h
        exact .cons hd (ih hr)

/-- An element no variant decoder accepts makes the whole array decode
fail: the element is not dropped. -/
theorem decodeResults_error_of_elem {xs : List Json} {j : Json}
    (hmem : j ∈ xs) (hj : ∀ y, decodeResultElem j ≠ .ok y) :
    ∃ e, decodeResults xs = .error e := by
  induction xs with
  | nil => cases hmem
  | cons x rest ih =>
    cases hd : decodeResultElem x with
    | error e => exact ⟨e, by unfold decodeResults; rw [hd]⟩
    | ok y =>
      rcases List.mem_cons.mp hmem with hx | hx
      · subst hx; exact absurd hd (hj y)
      · obtain ⟨e, he⟩ := ih hx
        exact ⟨e, by unfold decodeResults; rw [hd, he]⟩

/-- An element whose discriminator is no media-type wire value is rejected
by the element decoder. -/
theorem decodeResultElem_unknown {j : Json}
    (h : ∀ m : MediaType, discriminatorOf j ≠ some (MediaType.encode m)) :
    ∀ y, decodeResultElem j ≠ .ok y :=
  fun y hy => h (itemMediaType y) (decodeResultElem_ok_disc hy)

/-- C2: decoding a search-result array dispatches each element on its
mediaType discriminator - a successful decode yields one variant per
element, in input order, whose media kind matches the discriminator
value of that element; and any array containing an element whose
discriminator is not the wire value of a media type fails as a whole with
a typed decoding error. -/
theorem spec_C2 (xs : List Json) :
    (∀ ys, decodeResults xs = .ok ys →
      ys.length = xs.length ∧
      ∀ i (hx : i < xs.length) (hy : i < ys.length),
        discriminatorOf (xs.get ⟨i, hx⟩) =
          some (MediaType.encode (itemMediaType (ys.get ⟨i, hy⟩)))) ∧
    (∀ j ∈ xs,
      (∀ m : MediaType, discriminatorOf j ≠ some (MediaType.encode m)) →
      ∃ e, decodeResults xs = .error e) := by
  constructor
  · intro ys h
    have hf := decodeResults_forall₂ h
    refine ⟨hf.length_eq.symm, ?_⟩
    intro i hx hy
    exact decodeResultElem_ok_disc ((List.forall₂_iff_get.mp hf).2 i hx hy)
  · intro j hmem hdisc
    exact decodeResults_error_of_elem hmem (decodeResultElem_unknown hdisc)

/-- Witness for C2: the three-element array with discriminators "movie",
"tv", "person" decodes to three variants in order, and the singleton array
whose element carries the unrecognized discriminator "book" fails to
decode. -/
theorem spec_C2_witness :
    sampleItems.length = sampleJsonList.length ∧
    ∃ e, decodeResults [sampleBookJson] = .error e :=
  ⟨((spec_C2 sampleJsonList).1 sampleItems rfl).1,
   (spec_C2 [sampleBookJson]).2 sampleBookJson (by simp)
     (fun m => by cases m <;> decide)⟩

/-! ## Lemmas: optional nested media info -/

/-- For a present, non-null value the optional media_info decode defers to
the MediaInfo object decoder. -/
theorem decodeOptMediaInfo_ne_null {v : Json} (hv : v ≠ .null) :
    decodeOptMediaInfo (some v) = Except.map some (decodeMediaInfo v) := by
  cases v with
  | null => exact absurd rfl hv
  | bool b => rfl
  | num n => rfl
  | str s => rfl
  | arr elems => rfl
  | obj members => rfl

/-- A successful MovieResult decode stores exactly the optional media_info
decode of its mediaInfo key. -/
theorem decodeMovieResult_mediaInfo {j : Json} {r : MovieResult}
    (h : decodeMovieResult j = .ok r) :
    decodeOptMediaInfo (j.lookup "mediaInfo") = .ok r.media_info := by
  unfold decodeMovieResult at h
  split at h
  · rename_i idv mt ad ol ot ov pop ti mi h1 h2 h3 h4 h5 h6 h7 h8 h9
    injection h with h
    subst h
    exact h9
  all_goals simp at h

/-- C8: when decoding a movie search result, the nested optional mediaInfo
key decodes to the explicit absent value whenever it is missing or null -
that case is never an error - and a present non-null mediaInfo value
decodes to a MediaInfo record stored in the result. -/
theorem spec_C8 :
    decodeOptMediaInfo none = .ok none ∧
    decodeOptMediaInfo (some .null) = .ok none ∧
    (∀ j r, decodeMovieResult j = .ok r →
      (j.lookup "mediaInfo" = none → r.media_info = none) ∧
      (j.lookup "mediaInfo" = some .null → r.media_info = none) ∧
      (∀ v, j.lookup "mediaInfo" = some v → v ≠ .null →
        ∃ mi, decodeMediaInfo v = .ok mi ∧ r.media_info = some mi)) := by
  refine ⟨rfl, rfl, ?_⟩
  intro j r h
  have hmi := decodeMovieResult_mediaInfo h
  refine ⟨?_, ?_, ?_⟩
  · intro hk
    rw [hk] at hmi
    simp only [decodeOptMediaInfo, Except.ok.injEq] at hmi
    exact hmi.symm
  · intro hk
    rw [hk] at hmi
    simp only [decodeOptMediaInfo, Except.ok.injEq] at hmi
    exact hmi.symm
  · intro v hk hv
    rw [hk, decodeOptMediaInfo_ne_null hv] at hmi
    cases hm : decodeMediaInfo v with
    | error e => rw [hm] at hmi; exact absurd hmi (by simp [Except.map])
    | ok mi =>
      rw [hm] at hmi
      simp only [Except.map, Except.ok.injEq] at hmi
      exact ⟨mi, rfl, hmi.symm⟩

/-- Witness for C8: the sample movie object, which has no mediaInfo key,
decodes successfully and carries the absent media_info value. -/
theorem spec_C8_witness :
    decodeMovieResult sampleMovieJson = .ok sampleMovie ∧
    sampleMovie.media_info = none :=
  ⟨rfl, (spec_C8.2.2 sampleMovieJson sampleMovie rfl).1 rfl⟩

/-- C1: the claim requires a 403 access-denial response to fail with an
AuthenticationFailure type, and the test suite imports
OverseerrAuthenticationError for exactly that, but exceptions.py declares
no such class - only OverseerrError and OverseerrConnectionError exist,
so the code contradicts its own tests. -/
theorem spec_C1 :
    "OverseerrAuthenticationError" ∈ testImportedExceptionNames ∧
    "OverseerrAuthenticationError" ∉ declaredExceptionNames ∧
    (∀ c : ExcClass, pythonName c ≠ "OverseerrAuthenticationError") := by
  refine ⟨by simp [testImportedExceptionNames],
    by simp [declaredExceptionNames], ?_⟩
  intro c
  cases c <;> decide

/-- C4: every transport-level failure - timeout, refused connection, DNS
failure, premature close or generic client error - makes the call fail
with a ConnectionFailure wrapping the cause, and never with a
GenericServiceFailure. -/
theorem spec_C4 :
    ∀ t : TransportFailure,
      executeCall (.transport t) =
        .error (.connectionError (transportMessage t)) ∧
      ∀ s b, executeCall (.transport t) ≠ .error (.genericError s b) := by
  intro t
  refine ⟨rfl, ?_⟩
  intro s b hcontra
  simp [executeCall] at hcontra

/-- C5: the webhook-test operation returns a boolean derived from the
response status instead of raising - true for a 204 response, false for a
500 response, and for every response it returns a boolean rather than a
typed failure. -/
theorem spec_C5 :
    testWebhookNotificationConfig (.response (HttpResponse.mk 204 none "")) =
      .ok true ∧
    testWebhookNotificationConfig
        (.response (HttpResponse.mk 500
          (some (.obj
            [("message", .str "Failed to send webhook notification.")]))
          "Failed to send webhook notification.")) =
      .ok false ∧
    ∀ r : HttpResponse, ∃ b,
      testWebhookNotificationConfig (.response r) = .ok b :=
  ⟨rfl, rfl, fun r => ⟨isSuccessStatus r.status, rfl⟩⟩

/-- C6: closing the client affects only a session the client itself
created - closing a client built on a caller-supplied session leaves
that session untouched (also after a request ensured a session exists),
closing a client that lazily created its own session closes it, and
closing twice is the same as closing once. -/
theorem spec_C6 :
    (∀ s : Session, closeClient (mkClient (some s)) = mkClient (some s)) ∧
    (∀ s : Session,
      closeClient (ensureSession (mkClient (some s))) =
        mkClient (some s)) ∧
    (closeClient (ensureSession (mkClient none))).session =
      some { closed := true } ∧
    (∀ c : OverseerrClient, closeClient (closeClient c) = closeClient c) := by
  refine ⟨fun s => rfl, fun s => rfl, rfl, ?_⟩
  intro c
  rcases c with ⟨sess, flag⟩
  cases flag
  · rfl
  · cases sess with
    | none => rfl
    | some s => rfl

/-- C7: in the query parameters the request-fetching operation builds,
every omitted optional parameter is absent from the transmitted pairs and
every supplied one appears under its configured wire name with its
encoded wire value. -/
theorem spec_C7 (st : Option RequestFilterStatus)
    (so : Option RequestSortStatus) (rb : Option Nat) :
    (st = none → ∀ v, ("filter", v) ∉ getRequestsParams st so rb) ∧
    (∀ f, st = some f →
      ("filter", RequestFilterStatus.encode f) ∈
        getRequestsParams st so rb) ∧
    (so = none → ∀ v, ("sort", v) ∉ getRequestsParams st so rb) ∧
    (∀ s, so = some s →
      ("sort", RequestSortStatus.encode s) ∈ getRequestsParams st so rb) ∧
    (rb = none → ∀ v, ("requestedBy", v) ∉ getRequestsParams st so rb) ∧
    (∀ n, rb = some n →
      ("requestedBy", toString n) ∈ getRequestsParams st so rb) := by
  refine ⟨?_, ?_, ?_, ?_, ?_, ?_⟩
  · intro hst v
    subst hst
    cases so <;> cases rb <;> simp [getRequestsParams]
  · intro f hst
    subst hst
    cases so <;> cases rb <;> simp [getRequestsParams]
  · intro hso v
    subst hso
    cases st <;> cases rb <;> simp [getRequestsParams]
  · intro s hso
    subst hso
    cases st <;> cases rb <;> simp [getRequestsParams]
  · intro hrb v
    subst hrb
    cases st <;> cases so <;> simp [getRequestsParams]
  · intro n hrb
    subst hrb
    cases st <;> cases so <;> simp [getRequestsParams]

/-- Witness for C7: with only the filter supplied its pair is present and
no sort pair appears; with only the requesting user supplied its pair is
present under the requestedBy wire name. -/
theorem spec_C7_witness :
    ("filter", "all") ∈ getRequestsParams (some .all) none none ∧
    (∀ v, ("sort", v) ∉ getRequestsParams (some .all) none none) ∧
    ("requestedBy", toString (1 : Nat)) ∈
      getRequestsParams none none (some 1) :=
  ⟨(spec_C7 (some .all) none none).2.1 .all rfl,
   fun v => (spec_C7 (some .all) none none).2.2.1 rfl v,
   (spec_C7 none none (some 1)).2.2.2.2.2 1 rfl⟩

/-- C9: the spec requires an X-Api-Key header on every request, but the
header set the tests pin for every transmitted request (tests/const.py
HEADERS) holds only the User-Agent and Accept headers - no API-key header
is transmitted. -/
theorem spec_C9 :
    "X-Api-Key" ∈ specRequiredHeaderNames ∧
    ∀ version : String,
      (requestHeaders version).map Prod.fst = ["User-Agent", "Accept"] ∧
      "X-Api-Key" ∉ (requestHeaders version).map Prod.fst := by
  refine ⟨by simp [specRequiredHeaderNames], ?_⟩
  intro v
  refine ⟨rfl, ?_⟩
  simp [requestHeaders]

/-- C10: the connection-failure class is declared as a subclass of the
base OverseerrError, so every Overseerr exception class - every typed
failure the client can raise - is an instance of that single base type. -/
theorem spec_C10 :
    Subclass .overseerrConnectionError .overseerrError ∧
    ∀ c : ExcClass, c ≠ .pyException → Subclass c .overseerrError := by
  have hconn : Subclass .overseerrConnectionError .overseerrError :=
    .step rfl (.refl _)
  refine ⟨hconn, ?_⟩
  intro c hc
  cases c with
  | pyException => exact absurd rfl hc
  | overseerrError => exact .refl _
  | overseerrConnectionError => exact hconn

/-- Witness for C10: the connection-error class itself, which is not the
Python base Exception, is a subclass of OverseerrError. -/
theorem spec_C10_witness :
    Subclass ExcClass.overseerrConnectionError ExcClass.overseerrError :=
  spec_C10.2 ExcClass.overseerrConnectionError (by decide)

/-- Witness for C1: evaluated on the concrete name, the class the tests
rely on is missing from the declared classes. -/
theorem spec_C1_witness :
    "OverseerrAuthenticationError" ∉ declaredExceptionNames ∧
    pythonName ExcClass.overseerrError ≠ "OverseerrAuthenticationError" :=
  ⟨spec_C1.2.1, spec_C1.2.2 ExcClass.overseerrError⟩

/-- Witness for C4: an elapsed timeout, concretely, yields the connection
failure and not a generic failure with status 500. -/
theorem spec_C4_witness :
    executeCall (.transport .timeout) =
      .error (.connectionError (transportMessage .timeout)) ∧
    executeCall (.transport .timeout) ≠
      .error (.genericError 500 "") :=
  ⟨(spec_C4 .timeout).1, (spec_C4 .timeout).2 500 ""⟩

/-- Witness for C9: at a concrete version string, no X-Api-Key header is
among the transmitted header names. -/
theorem spec_C9_witness :
    "X-Api-Key" ∉ (requestHeaders "1.0.0").map Prod.fst :=
  (spec_C9.2 "1.0.0").2
